import Mathlib

/-!
Verification of the core of the FoundryVTT MCP bridge: the world-snapshot
cache, its read-only Query Layer, the connection lifecycle
(`disconnect` / `refreshWorldData`), the credential-submission step of the
4-step authentication flow, and the combat-state presentation handler.

The definitions below are a shallow embedding of the TypeScript sources
(`src/foundry/client.ts`, `src/foundry/auth.ts`,
`src/tools/handlers/combat.ts`).  Conventions of the embedding:

* `x | null | undefined` becomes `Option`; a thrown `Error` becomes
  `Except.error` carrying the message string from the source.
* JavaScript truthiness tests on strings and numbers (`if (s)`,
  `x || d`) are modelled explicitly: the empty string and `0` count as
  falsy (`jsStrFilter`, `jsOrNat`).
* `String.prototype.toLowerCase` is modelled as code-point-wise
  `Char.toLower` (`lowerStr`), and `String.prototype.includes` as list
  infix containment on the lowered character lists.
* The open-ended game-system payloads (`actor.system`, `item.system`,
  `scene.flags`) are modelled by the tagged union `SysVal`; the
  safe-nested-extraction helpers `extractNested` / `extractString`
  mirror the source helpers of the same names.
* Result-count limits are modelled as `Nat` (the tool layer only ever
  produces non-negative counts).
* Each client method with a REST branch (`config.apiKey` set) is
  modelled in Socket.IO / snapshot mode only: the REST branch is a
  network pass-through that never consults the world snapshot and is
  outside the cache core treated here.
* `Array.prototype.sort` (stable since ES2019) with the numeric
  comparator of the combat handler is modelled by the stable
  `List.insertionSort` under the corresponding total preorder.
* The interface file `types.ts` is type declarations only and is not
  among the provided sources; the document shapes below are
  reconstructed from every field access the provided code performs.
-/

namespace FoundryMCP

/-- Lowercases a string code-point-wise, returned as a character list;
models `s.toLowerCase()` applied before comparisons. -/
def lowerStr (s : String) : List Char :=
  s.toList.map Char.toLower

/-- Case-insensitive substring containment; models
`hay.toLowerCase().includes(q.toLowerCase())`. -/
def strContainsCI (hay q : String) : Bool :=
  decide (lowerStr q <:+: lowerStr hay)

/-- Models the JavaScript expression `n || d` for an optional number
field: `undefined` and `0` are falsy and select the default. -/
def jsOrNat (n : Option Nat) (d : Nat) : Nat :=
  match n with
  | some v => if v = 0 then d else v
  | none => d

/-- Models the JavaScript truthiness guard `if (s)` on an optional
string: `undefined` and the empty string are falsy. -/
def jsStrFilter (s : Option String) : Option String :=
  match s with
  | some v => if v = "" then none else some v
  | none => none

/-- Tagged union for the schema-less game-system payloads
(`Record<string, unknown>` trees in the source). -/
inductive SysVal where
  | str (s : String)
  | num (n : Int)
  | bool (b : Bool)
  | null
  | arr (xs : List SysVal)
  | obj (fields : List (String × SysVal))

/-- Models `isRecord(value)`: a plain object (not null, not an array). -/
def isRecord : SysVal → Bool
  | .obj _ => true
  | _ => false

/-- Property access `key in current ? current[key] : undefined` on a
record value; non-records have no properties. -/
def SysVal.getKey : SysVal → String → Option SysVal
  | .obj fields, k => fields.lookup k
  | _, _ => none

/-- Models `extractNested(obj, ...keys)`: walks a chain of keys through
record values, returning `undefined` as soon as a step fails. -/
def extractNested (obj : SysVal) (keys : List String) : Option SysVal :=
  keys.foldl (fun cur k => cur.bind (fun v => v.getKey k)) (some obj)

/-- Models `extractString(obj, ...keys)`: `extractNested` then a
`typeof val === 'string'` check. -/
def extractString (obj : SysVal) (keys : List String) : Option String :=
  match extractNested obj keys with
  | some (.str s) => some s
  | _ => none

/-- Reads an `Int` property with a `typeof x === 'number'` guard and a
default. -/
def numField (v : SysVal) (k : String) (d : Int) : Int :=
  match v.getKey k with
  | some (.num n) => n
  | _ => d

/-- Reads an optional `Int` property with a `typeof x === 'number'`
guard. -/
def numFieldOpt (v : SysVal) (k : String) : Option Int :=
  match v.getKey k with
  | some (.num n) => some n
  | _ => none

/-- Raw actor document of the world snapshot (`WorldActor`). -/
structure WorldActor where
  _id : String
  name : String
  type : String
  img : Option String
  system : Option SysVal

/-- Raw item document of the world snapshot (`WorldItem`). -/
structure WorldItem where
  _id : String
  name : String
  type : String
  img : Option String
  system : SysVal

/-- Raw scene document of the world snapshot (`WorldScene`). -/
structure WorldScene where
  _id : String
  name : String
  active : Bool
  navigation : Bool
  width : Int
  height : Int
  padding : Int
  globalLight : Bool
  darkness : Int
  img : Option String
  flags : Option SysVal

/-- Text body of a journal page (`p.text`, with optional `content`). -/
structure JournalPageText where
  content : Option String

/-- One page of a journal entry. -/
structure JournalPage where
  name : String
  text : Option JournalPageText

/-- Raw journal document of the world snapshot (`WorldJournal`). -/
structure WorldJournal where
  _id : String
  name : String
  pages : Option (List JournalPage)

/-- Chat message document; only counted and listed by the core. -/
structure WorldMessage where
  _id : String
  content : String

/-- User document of the world snapshot. -/
structure WorldUser where
  _id : String
  name : String
  deriving DecidableEq

/-- One combatant entry of a combat encounter; `initiative` is
`number | null` in the source. -/
structure WorldCombatant where
  name : String
  initiative : Option Int
  defeated : Bool
  hidden : Bool
  actorId : Option String
  deriving DecidableEq

/-- Combat encounter document of the world snapshot. -/
structure WorldCombat where
  _id : String
  active : Bool
  round : Int
  turn : Int
  combatants : List WorldCombatant
  deriving DecidableEq

/-- The World Snapshot (`WorldData`): every collection the server
returns for the `world` request.  The `macros`, `playlists`, `tables`
and `folders` collections are only ever counted by the core, so their
documents are modelled by their identifier strings. -/
structure WorldData where
  actors : List WorldActor
  items : List WorldItem
  scenes : List WorldScene
  journal : List WorldJournal
  combats : List WorldCombat
  messages : List WorldMessage
  users : List WorldUser
  activeUsers : List String
  macros : List String
  playlists : List String
  tables : List String
  folders : List String

/-- Normalized hit-point block of a display actor. -/
structure HpInfo where
  value : Int
  max : Int
  temp : Option Int
  deriving DecidableEq

/-- Normalized ability-score entry of a display actor. -/
structure AbilityEntry where
  value : Int
  mod : Int
  save : Option Int
  deriving DecidableEq

/-- Display actor (`FoundryActor`) produced by `worldActorToFoundry`. -/
structure FoundryActor where
  _id : String
  name : String
  type : String
  img : Option String
  hp : Option HpInfo
  ac : Option Int
  level : Option Int
  abilities : Option (List (String × AbilityEntry))
  biography : Option String
  deriving DecidableEq

/-- Display scene (`FoundryScene`) produced by `worldSceneToFoundry`. -/
structure FoundryScene where
  _id : String
  name : String
  active : Bool
  navigation : Bool
  width : Int
  height : Int
  padding : Int
  shiftX : Int
  shiftY : Int
  globalLight : Bool
  darkness : Int
  img : Option String
  description : Option String

/-- Models `worldActorToFoundry`: normalizes the known stable subset
(hp, ac, level, abilities, biography) out of the raw system payload. -/
def worldActorToFoundry (a : WorldActor) : FoundryActor :=
  let sys := a.system.getD (.obj [])
  let hp := (extractNested sys ["attributes", "hp"]).bind
    (fun v => if isRecord v then some v else none)
  let ac := (extractNested sys ["attributes", "ac"]).bind
    (fun v => if isRecord v then some v else none)
  let details := match sys.getKey "details" with
    | some d => if isRecord d then d else .obj []
    | none => .obj []
  let mappedAbilities : Option (List (String × AbilityEntry)) :=
    match sys.getKey "abilities" with
    | some (.obj fields) =>
      some (fields.filterMap (fun kv =>
        match kv.2 with
        | .obj entryFields =>
          some (kv.1,
            { value := numField (.obj entryFields) "value" 10
              mod := numField (.obj entryFields) "mod" 0
              save := numFieldOpt (.obj entryFields) "save" })
        | _ => none))
    | _ => none
  let bio :=
    match jsStrFilter (extractString details ["biography", "value"]) with
    | some b => some b
    | none => extractString details ["biography"]
  { _id := a._id
    name := a.name
    type := a.type
    img := jsStrFilter a.img
    hp := hp.map (fun hv =>
      { value := numField hv "value" 0
        max := numField hv "max" 0
        temp := numFieldOpt hv "temp" })
    ac := ac.bind (fun av => numFieldOpt av "value")
    level := numFieldOpt details "level"
    abilities := mappedAbilities
    biography := jsStrFilter bio }

/-- Models `worldSceneToFoundry`. -/
def worldSceneToFoundry (s : WorldScene) : FoundryScene :=
  { _id := s._id
    name := s.name
    active := s.active
    navigation := s.navigation
    width := s.width
    height := s.height
    padding := s.padding
    shiftX := 0
    shiftY := 0
    globalLight := s.globalLight
    darkness := s.darkness
    img := jsStrFilter s.img
    description :=
      match s.flags with
      | some f =>
        match f.getKey "description" with
        | some (.str d) => some d
        | _ => none
      | none => none }

/-- Search-result projection of an item built inline by `searchItems`. -/
structure SearchItemView where
  _id : String
  name : String
  type : String
  img : Option String
  description : Option String
  rarity : Option String
  deriving DecidableEq

/-- Models the item projection built inside `searchItems`. -/
def worldItemToSearchView (i : WorldItem) : SearchItemView :=
  { _id := i._id
    name := i.name
    type := i.type
    img := jsStrFilter i.img
    description := jsStrFilter (extractString i.system ["description", "value"])
    rarity := jsStrFilter (extractString i.system ["rarity"]) }

/-- Parameters of `searchActors` (`SearchActorsParams`). -/
structure SearchActorsParams where
  query : Option String
  type : Option String
  limit : Option Nat

/-- Parameters of `searchItems` (`SearchItemsParams`). -/
structure SearchItemsParams where
  query : Option String
  type : Option String
  rarity : Option String
  limit : Option Nat

/-- Result record of `searchActors` (`ActorSearchResult`). -/
structure ActorSearchResult where
  actors : List FoundryActor
  total : Nat
  page : Nat
  limit : Nat
  deriving DecidableEq

/-- Result record of `searchItems` (`ItemSearchResult`). -/
structure ItemSearchResult where
  items : List SearchItemView
  total : Nat
  page : Nat
  limit : Nat
  deriving DecidableEq

/-- Models `FoundryClient.searchActors` in snapshot mode: name filter
(skipped for a falsy query), type filter (skipped for a falsy type),
truncation by `params.limit || 10`, and the separately reported total. -/
def searchActors (worldData : Option WorldData) (params : SearchActorsParams) :
    ActorSearchResult :=
  match worldData with
  | none => { actors := [], total := 0, page := 1, limit := jsOrNat params.limit 10 }
  | some w =>
    let results := w.actors
    let results : List WorldActor := match jsStrFilter params.query with
      | some q => results.filter (fun a => strContainsCI a.name q)
      | none => results
    let results : List WorldActor := match jsStrFilter params.type with
      | some t => results.filter (fun a => lowerStr a.type == lowerStr t)
      | none => results
    let total := results.length
    let limit := jsOrNat params.limit 10
    { actors := (results.take limit).map worldActorToFoundry
      total := total
      page := 1
      limit := limit }

/-- Models `FoundryClient.searchItems` in snapshot mode; identical
filter pipeline to `searchActors` (the `rarity` parameter is accepted
but never used as a filter by the source). -/
def searchItems (worldData : Option WorldData) (params : SearchItemsParams) :
    ItemSearchResult :=
  match worldData with
  | none => { items := [], total := 0, page := 1, limit := jsOrNat params.limit 10 }
  | some w =>
    let results := w.items
    let results : List WorldItem := match jsStrFilter params.query with
      | some q => results.filter (fun i => strContainsCI i.name q)
      | none => results
    let results : List WorldItem := match jsStrFilter params.type with
      | some t => results.filter (fun i => lowerStr i.type == lowerStr t)
      | none => results
    let total := results.length
    let limit := jsOrNat params.limit 10
    { items := (results.take limit).map worldItemToSearchView
      total := total
      page := 1
      limit := limit }

/-- Models `FoundryClient.getActor` in snapshot mode: it throws when no
snapshot is present, and throws `Actor not found` on a missing id. -/
def getActor (worldData : Option WorldData) (actorId : String) :
    Except String FoundryActor :=
  match worldData with
  | none => .error "Not connected — no world data available"
  | some w =>
    match w.actors.find? (fun a => a._id == actorId) with
    | none => .error ("Actor not found: " ++ actorId)
    | some a => .ok (worldActorToFoundry a)

/-- Models `FoundryClient.getRawActor`. -/
def getRawActor (worldData : Option WorldData) (actorId : String) :
    Option WorldActor :=
  match worldData with
  | none => none
  | some w => w.actors.find? (fun a => a._id == actorId)

/-- Models `FoundryClient.getCurrentScene` in snapshot mode.  With a
(truthy) scene id it looks the scene up by id; otherwise it selects the
first scene flagged active, throwing `No active scene` when none is. -/
def getCurrentScene (worldData : Option WorldData) (sceneId : Option String) :
    Except String FoundryScene :=
  match worldData with
  | none => .error "Not connected — no world data available"
  | some w =>
    match jsStrFilter sceneId with
    | some sid =>
      match w.scenes.find? (fun s => s._id == sid) with
      | none => .error ("Scene not found: " ++ sid)
      | some s => .ok (worldSceneToFoundry s)
    | none =>
      match w.scenes.find? (fun s => s.active) with
      | none => .error "No active scene"
      | some s => .ok (worldSceneToFoundry s)

/-- Models `FoundryClient.getScenes` (`worldData?.scenes || []`). -/
def getScenes (worldData : Option WorldData) : List WorldScene :=
  match worldData with
  | none => []
  | some w => w.scenes

/-- Models `FoundryClient.getCombatState`: the first combat flagged
active, or `null`. -/
def getCombatState (worldData : Option WorldData) : Option WorldCombat :=
  match worldData with
  | none => none
  | some w => w.combats.find? (fun c => c.active)

/-- Models `arr.slice(-n)` on lists: the last `n` elements (`slice(0)`,
the whole array, when `n = 0`). -/
def jsSliceNeg (l : List α) (n : Nat) : List α :=
  if n = 0 then l else l.drop (l.length - n)

/-- Models `FoundryClient.getChatMessages` (default limit 20 at the
call sites). -/
def getChatMessages (worldData : Option WorldData) (limit : Nat) :
    List WorldMessage :=
  match worldData with
  | none => []
  | some w => jsSliceNeg w.messages limit

/-- Result record of `getUsers`. -/
structure UsersResult where
  users : List WorldUser
  activeUsers : List String
  deriving DecidableEq

/-- Models `FoundryClient.getUsers`. -/
def getUsers (worldData : Option WorldData) : UsersResult :=
  match worldData with
  | none => { users := [], activeUsers := [] }
  | some w => { users := w.users, activeUsers := w.activeUsers }

/-- Models `FoundryClient.getJournals` (`worldData?.journal || []`). -/
def getJournals (worldData : Option WorldData) : List WorldJournal :=
  match worldData with
  | none => []
  | some w => w.journal

/-- Journal match predicate of `searchJournals`: name containment, or
containment in any nested page name or page text content. -/
def journalMatches (query : String) (j : WorldJournal) : Bool :=
  strContainsCI j.name query ||
    (match j.pages with
     | none => false
     | some ps => ps.any (fun p =>
         strContainsCI p.name query ||
           (match p.text with
            | none => false
            | some t =>
              match t.content with
              | none => false
              | some c => strContainsCI c query)))

/-- Models `FoundryClient.searchJournals`. -/
def searchJournals (worldData : Option WorldData) (query : String) :
    List WorldJournal :=
  match worldData with
  | none => []
  | some w => w.journal.filter (journalMatches query)

/-- Models `FoundryClient.getJournal`. -/
def getJournal (worldData : Option WorldData) (journalId : String) :
    Option WorldJournal :=
  match worldData with
  | none => none
  | some w => w.journal.find? (fun j => j._id == journalId)

/-- Result record of the cross-collection `searchWorld`. -/
structure WorldSearchResult where
  actors : List WorldActor
  items : List WorldItem
  scenes : List WorldScene
  journals : List WorldJournal

/-- Models `FoundryClient.searchWorld`. -/
def searchWorld (worldData : Option WorldData) (query : String) :
    WorldSearchResult :=
  match worldData with
  | none => { actors := [], items := [], scenes := [], journals := [] }
  | some w =>
    { actors := w.actors.filter (fun a => strContainsCI a.name query)
      items := w.items.filter (fun i => strContainsCI i.name query)
      scenes := w.scenes.filter (fun s => strContainsCI s.name query)
      journals := w.journal.filter (fun j => strContainsCI j.name query) }

/-- Models `FoundryClient.getWorldSummary`: the flat mapping from
collection name to element count (empty when no snapshot is present). -/
def getWorldSummary (worldData : Option WorldData) : List (String × Nat) :=
  match worldData with
  | none => []
  | some w =>
    [("actors", w.actors.length),
     ("items", w.items.length),
     ("scenes", w.scenes.length),
     ("journals", w.journal.length),
     ("combats", w.combats.length),
     ("users", w.users.length),
     ("messages", w.messages.length),
     ("macros", w.macros.length),
     ("playlists", w.playlists.length),
     ("tables", w.tables.length),
     ("folders", w.folders.length)]

/-- Realtime connection handle; only its `connected` flag is consulted
by the modelled operations. -/
structure SocketHandle where
  connected : Bool
  deriving DecidableEq

/-- Mutable fields of a `FoundryClient` instance that the modelled
lifecycle operations touch. -/
structure FoundryClientState where
  socket : Option SocketHandle
  worldData : Option WorldData
  _isConnected : Bool

/-- Models `FoundryClient.isConnected`. -/
def isConnected (s : FoundryClientState) : Bool :=
  s._isConnected

/-- Models `FoundryClient.hasWorldData` (`worldData !== null`). -/
def hasWorldData (s : FoundryClientState) : Bool :=
  s.worldData.isSome

/-- Models `FoundryClient.disconnect`: closes and drops the socket,
discards the snapshot, and clears the connected flag. -/
def disconnect (_s : FoundryClientState) : FoundryClientState :=
  { socket := none, worldData := none, _isConnected := false }

/-- Models `this.socket?.connected` truthiness. -/
def socketIsConnected (s : Option SocketHandle) : Bool :=
  match s with
  | some h => h.connected
  | none => false

/-- Outcome of the awaited `world` re-request inside
`refreshWorldData`: either the full payload arrives, or the 15-second
timer fires first and the promise rejects. -/
inductive RefreshOutcome where
  | success (data : WorldData)
  | timeout

/-- Models `FoundryClient.refreshWorldData`: throws `Not connected`
when no open socket exists; otherwise awaits the `world` response and
assigns the snapshot only on success.  The returned pair is the
thrown/ok result together with the client state after the call. -/
def refreshWorldData (s : FoundryClientState) (outcome : RefreshOutcome) :
    Except String Unit × FoundryClientState :=
  if socketIsConnected s.socket then
    match outcome with
    | .success d => (.ok (), { s with worldData := some d })
    | .timeout => (.error "Refresh timeout", s)
  else
    (.error "Not connected — cannot refresh world data", s)

/-- Shape of the JSON body of the `POST /join` response
(`joinRes.data`), as far as `authenticateFoundry` inspects it. -/
structure JoinResponseData where
  status : Option String
  redirect : Option String
  message : Option String
  error : Option String
  deriving DecidableEq

/-- The diagnostic picked by `authenticateFoundry` on rejection:
`joinRes.data?.message || joinRes.data?.error || 'Unknown error'`. -/
def joinFailureDetail (data : Option JoinResponseData) : String :=
  match jsStrFilter (data.bind (fun d => d.message)) with
  | some m => m
  | none =>
    match jsStrFilter (data.bind (fun d => d.error)) with
    | some e => e
    | none => "Unknown error"

/-- Models the credential-submission step (step 3) of
`authenticateFoundry`: the join POST has been issued and `data` is the
response body; the step throws unless the body signals explicit
success or a redirect to `/game`, and otherwise returns the
`{session, userId}` pair. -/
def submitJoinCredentials (session userId : String)
    (data : Option JoinResponseData) : Except String (String × String) :=
  if data.bind (fun d => d.status) ≠ some "success" ∧
      data.bind (fun d => d.redirect) ≠ some "/game" then
    .error ("FoundryVTT authentication failed: " ++ joinFailureDetail data)
  else
    .ok (session, userId)

/-- Sort key of the combat handler's comparator:
`c.initiative ?? -999`. -/
def initKey (c : WorldCombatant) : Int :=
  c.initiative.getD (-999)

/-- Ordering imposed by the comparator
`(a, b) => (b.initiative ?? -999) - (a.initiative ?? -999)`:
descending by `initKey`. -/
def combatantDescOrder (a b : WorldCombatant) : Prop :=
  initKey b ≤ initKey a

instance : DecidableRel combatantDescOrder :=
  fun a b => inferInstanceAs (Decidable (initKey b ≤ initKey a))

/-- Models `combat.combatants.sort(...)` of `handleGetCombatState`: the
stable sort of the combatants by the comparator above. -/
def sortCombatants (l : List WorldCombatant) : List WorldCombatant :=
  List.insertionSort combatantDescOrder l

/-- The claim's reading of the presented combatant order: no combatant
with absent initiative ever precedes one that has a numeric initiative
value. -/
def absentInitiativeAfterNumeric (l : List WorldCombatant) : Prop :=
  l.Pairwise (fun x y => x.initiative = none → y.initiative = none)

/-- Effect of `handleGetCombatState` on the cached combats collection:
`Array.prototype.sort` sorts in place, and the combat object returned
by `getCombatState` aliases the snapshot entry, so the first combat
flagged active has its combatants list reordered inside the cache. -/
def sortFirstActiveCombat : List WorldCombat → List WorldCombat
  | [] => []
  | c :: cs =>
    if c.active then
      { c with combatants := sortCombatants c.combatants } :: cs
    else
      c :: sortFirstActiveCombat cs

/-- The world snapshot as it stands after one `handleGetCombatState`
read call (the in-place `sort` applied through the alias). -/
def worldAfterGetCombatState (w : WorldData) : WorldData :=
  { w with combats := sortFirstActiveCombat w.combats }

/-- The effective limit computed by the `handleSearchActors` tool
handler: `const { limit = 10 } = args; Math.min(limit, 50)`. -/
def handlerEffectiveLimit (limit : Option Nat) : Nat :=
  min (limit.getD 10) 50

/-- The full search pipeline a tool call traverses:
`handleSearchActors` caps the requested limit at 50 (default 10) and
forwards to `FoundryClient.searchActors`. -/
def handleSearchActorsCall (worldData : Option WorldData)
    (query type : Option String) (limit : Option Nat) : ActorSearchResult :=
  searchActors worldData
    { query := query, type := type, limit := some (handlerEffectiveLimit limit) }

/-- Name-filter predicate of the search pipeline, including the
skip-on-falsy-query behaviour. -/
def actorNameMatchesCI (query : Option String) (a : WorldActor) : Bool :=
  match jsStrFilter query with
  | some q => strContainsCI a.name q
  | none => true

/-- Type-filter predicate of the search pipeline, including the
skip-on-falsy-type behaviour. -/
def actorTypeMatchesCI (type : Option String) (a : WorldActor) : Bool :=
  match jsStrFilter type with
  | some t => lowerStr a.type == lowerStr t
  | none => true

/-- The documents an actor search selects before truncation. -/
def actorsMatching (w : WorldData) (query type : Option String) :
    List WorldActor :=
  w.actors.filter (fun a => actorNameMatchesCI query a && actorTypeMatchesCI type a)

/-- Name-filter predicate of the item search pipeline. -/
def itemNameMatchesCI (query : Option String) (i : WorldItem) : Bool :=
  match jsStrFilter query with
  | some q => strContainsCI i.name q
  | none => true

/-- Type-filter predicate of the item search pipeline. -/
def itemTypeMatchesCI (type : Option String) (i : WorldItem) : Bool :=
  match jsStrFilter type with
  | some t => lowerStr i.type == lowerStr t
  | none => true

/-- The documents an item search selects before truncation. -/
def itemsMatching (w : WorldData) (query type : Option String) :
    List WorldItem :=
  w.items.filter (fun i => itemNameMatchesCI query i && itemTypeMatchesCI type i)

/-- Snapshot fixture with every collection empty. -/
def wEmpty : WorldData :=
  { actors := [], items := [], scenes := [], journal := [], combats := []
    messages := [], users := [], activeUsers := [], macros := []
    playlists := [], tables := [], folders := [] }

/-- Actor fixture. -/
def actorGandalf : WorldActor :=
  { _id := "a1", name := "Gandalf", type := "npc", img := none, system := none }

/-- Snapshot fixture containing exactly one actor named Gandalf. -/
def wGandalf : WorldData :=
  { wEmpty with actors := [actorGandalf] }

/-- Combatant fixture with a numeric initiative below the comparator's
sentinel value. -/
def cGoblin : WorldCombatant :=
  { name := "Goblin", initiative := some (-1000), defeated := false
    hidden := false, actorId := none }

/-- Combatant fixture with absent initiative. -/
def cWolf : WorldCombatant :=
  { name := "Wolf", initiative := none, defeated := false, hidden := false
    actorId := none }

/-- Combatant fixture with initiative 5. -/
def cAlice : WorldCombatant :=
  { name := "Alice", initiative := some 5, defeated := false, hidden := false
    actorId := none }

/-- Combatant fixture with initiative 10. -/
def cBob : WorldCombatant :=
  { name := "Bob", initiative := some 10, defeated := false, hidden := false
    actorId := none }

/-- Active combat fixture whose combatants are stored in ascending
initiative order. -/
def combatFixture : WorldCombat :=
  { _id := "c1", active := true, round := 1, turn := 0
    combatants := [cAlice, cBob] }

/-- Scene fixture flagged active. -/
def sceneA : WorldScene :=
  { _id := "s1", name := "Courtyard", active := true, navigation := true
    width := 100, height := 100, padding := 0, globalLight := true
    darkness := 0, img := none, flags := none }

/-- Snapshot fixture with one active scene and one active combat. -/
def wActive : WorldData :=
  { wEmpty with scenes := [sceneA], combats := [combatFixture] }

/-- Client state fixture with no open socket. -/
def sDisconnected : FoundryClientState :=
  { socket := none, worldData := some wGandalf, _isConnected := false }

/-- Client state fixture with an open socket and a cached snapshot. -/
def sConnected : FoundryClientState :=
  { socket := some { connected := true }, worldData := some wGandalf
    _isConnected := true }

/-- Characterization of `searchActors` on a present snapshot: the
returned slice is the truncated image of `actorsMatching`, and `total`
is its full length. -/
theorem searchActors_eq (w : WorldData) (p : SearchActorsParams) :
    searchActors (some w) p =
      { actors := ((actorsMatching w p.query p.type).take (jsOrNat p.limit 10)).map
          worldActorToFoundry
        total := (actorsMatching w p.query p.type).length
        page := 1
        limit := jsOrNat p.limit 10 } := by
  unfold searchActors actorsMatching
  cases hq : jsStrFilter p.query <;> cases ht : jsStrFilter p.type <;>
    simp [actorNameMatchesCI, actorTypeMatchesCI, hq, ht, List.filter_filter,
      Bool.and_comm]

/-- Characterization of `searchItems` on a present snapshot. -/
theorem searchItems_eq (w : WorldData) (p : SearchItemsParams) :
    searchItems (some w) p =
      { items := ((itemsMatching w p.query p.type).take (jsOrNat p.limit 10)).map
          worldItemToSearchView
        total := (itemsMatching w p.query p.type).length
        page := 1
        limit := jsOrNat p.limit 10 } := by
  unfold searchItems itemsMatching
  cases hq : jsStrFilter p.query <;> cases ht : jsStrFilter p.type <;>
    simp [itemNameMatchesCI, itemTypeMatchesCI, hq, ht, List.filter_filter,
      Bool.and_comm]

/-- The empty string lowers to the empty character list. -/
theorem lowerStr_empty : lowerStr "" = [] := rfl

/-- Boolean containment agrees with infix containment of the lowered
character lists. -/
theorem strContainsCI_iff (hay q : String) :
    strContainsCI hay q = true ↔ lowerStr q <:+: lowerStr hay := by
  simp [strContainsCI]

/-- Every string contains the empty query. -/
theorem strContainsCI_empty (hay : String) : strContainsCI hay "" = true := by
  simp [strContainsCI_iff, lowerStr_empty]

/-- C1 (counterexample): with no snapshot present, the single-document
lookups `getActor` and `getCurrentScene` do fail — they return the
`Not connected` error rather than an empty/zero result, refuting the
claim that every listed read accessor never fails in that state. -/
theorem getActor_fails_without_snapshot :
    getActor none "a1" = .error "Not connected — no world data available" ∧
    getCurrentScene none none
      = .error "Not connected — no world data available" :=
  ⟨rfl, rfl⟩

/-- C1 (amended): with no snapshot present, every collection-returning
Query Layer read (substring searches, journal/world search, summary,
chat messages, users, scenes list, journals, combat lookup) returns an
empty/zero result and never fails, while the single-document lookups
`getActor` and `getCurrentScene` fail with a `Not connected` error. -/
theorem queryLayer_empty_without_snapshot :
    (∀ p : SearchActorsParams, searchActors none p
      = { actors := [], total := 0, page := 1, limit := jsOrNat p.limit 10 }) ∧
    (∀ p : SearchItemsParams, searchItems none p
      = { items := [], total := 0, page := 1, limit := jsOrNat p.limit 10 }) ∧
    (∀ q : String, searchJournals none q = []) ∧
    (∀ q : String, searchWorld none q
      = { actors := [], items := [], scenes := [], journals := [] }) ∧
    getWorldSummary none = [] ∧
    (∀ n : Nat, getChatMessages none n = []) ∧
    getUsers none = { users := [], activeUsers := [] } ∧
    getScenes none = [] ∧
    getJournals none = [] ∧
    getCombatState none = none ∧
    (∀ id : String, getActor none id
      = .error "Not connected — no world data available") ∧
    (∀ sid : Option String, getCurrentScene none sid
      = .error "Not connected — no world data available") :=
  ⟨fun _ => rfl, fun _ => rfl, fun _ => rfl, fun _ => rfl, rfl, fun _ => rfl,
    rfl, rfl, rfl, rfl, fun _ => rfl, fun _ => rfl⟩

/-- C8: `disconnect` leaves the client unconnected with an absent
snapshot and a closed (dropped) socket, and a second `disconnect` is
the identity on that state. -/
theorem disconnect_idempotent :
    ∀ s : FoundryClientState,
      isConnected (disconnect s) = false ∧
      (disconnect s).worldData = none ∧
      (disconnect s).socket = none ∧
      disconnect (disconnect s) = disconnect s :=
  fun _ => ⟨rfl, rfl, rfl, rfl⟩

/-- C4 (counterexample): the comparator treats absent initiative as the
finite sentinel `-999`, not as minus infinity: a combatant with numeric
initiative `-1000` is placed after the absent-initiative combatant, so
the sorted order violates `absentInitiativeAfterNumeric`. -/
theorem sortCombatants_sentinel_counterexample :
    sortCombatants [cGoblin, cWolf] = [cWolf, cGoblin] ∧
    cWolf.initiative = none ∧
    cGoblin.initiative = some (-1000) ∧
    ¬ absentInitiativeAfterNumeric (sortCombatants [cGoblin, cWolf]) := by
  refine ⟨by decide, rfl, rfl, ?_⟩
  unfold absentInitiativeAfterNumeric
  decide

/-- C4 (amended): the presented combatant order is a permutation of
the stored one, sorted descending by the sentinel-completed initiative
key `initiative ?? -999`; hence combatants with absent initiative are
placed after all combatants whose initiative exceeds `-999`, but not
after numeric initiatives of `-999` or below. -/
theorem sortCombatants_sorted_desc_by_sentinel :
    ∀ l : List WorldCombatant,
      (sortCombatants l).Perm l ∧
      (sortCombatants l).Pairwise combatantDescOrder := by
  intro l
  constructor
  · exact List.perm_insertionSort _ l
  · haveI : IsTotal WorldCombatant combatantDescOrder :=
      ⟨fun a b => le_total (initKey b) (initKey a)⟩
    haveI : IsTrans WorldCombatant combatantDescOrder :=
      ⟨fun _ _ _ h1 h2 => le_trans h2 h1⟩
    exact List.sorted_insertionSort _ l

/-- C5 (code bug): a `handleGetCombatState` read call mutates the
cached snapshot in place — `combat.combatants.sort` reorders the
combatants list of the active combat through the alias returned by
`getCombatState`, so the snapshot after the read differs from the
snapshot before it. -/
theorem handleGetCombatState_mutates_snapshot :
    (worldAfterGetCombatState wActive).combats
      = [{ combatFixture with combatants := [cBob, cAlice] }] ∧
    worldAfterGetCombatState wActive ≠ wActive := by
  constructor
  · decide
  · intro h
    exact absurd (congrArg WorldData.combats h) (by decide)

/-- C2 (counterexample): a caller-requested limit of 0 does not bound
the slice by `min(0, 50) = 0`: the pipeline returns 1 item from a
1-actor snapshot because the client treats the falsy limit 0 as
unspecified and applies the default 10. -/
theorem searchPipeline_limit_zero_counterexample :
    (handleSearchActorsCall (some wGandalf) none none (some 0)).actors.length = 1 ∧
    ¬ ((handleSearchActorsCall (some wGandalf) none none (some 0)).actors.length
        ≤ min 0 50) := by
  constructor
  · decide
  · decide

/-- C2 (amended): for every caller-requested limit `L ≥ 1` the search
pipeline returns at most `min(L, 50)` items while reporting the full
pre-truncation match count as `total`; an unspecified limit defaults to
10.  (A requested limit of 0 is instead treated as unspecified, see the
counterexample.) -/
theorem searchPipeline_respects_capped_limit :
    ∀ (w : WorldData) (query type : Option String) (L : Nat), 1 ≤ L →
      ((handleSearchActorsCall (some w) query type (some L)).actors.length
          ≤ min L 50 ∧
       (handleSearchActorsCall (some w) query type (some L)).total
          = (actorsMatching w query type).length) ∧
      (handleSearchActorsCall (some w) query type none).actors.length ≤ 10 := by
  intro w query type L hL
  have hne : ¬ (min L 50 = 0) := by omega
  have hlim : jsOrNat (some (handlerEffectiveLimit (some L))) 10 = min L 50 := by
    simp [jsOrNat, handlerEffectiveLimit, hne]
  have hlim10 : jsOrNat (some (handlerEffectiveLimit none)) 10 = 10 := by
    simp [jsOrNat, handlerEffectiveLimit]
  refine ⟨⟨?_, ?_⟩, ?_⟩
  · rw [handleSearchActorsCall, searchActors_eq]
    simp only [List.length_map, List.length_take, hlim]
    exact Nat.min_le_left _ _
  · rw [handleSearchActorsCall, searchActors_eq]
  · rw [handleSearchActorsCall, searchActors_eq]
    simp only [List.length_map, List.length_take, hlim10]
    exact Nat.min_le_left _ _

/-- C2 witness: the amended bound applied at the concrete 1-actor
snapshot with requested limit 3. -/
theorem searchPipeline_respects_capped_limit_witness :
    1 ≤ 3 ∧
    ((handleSearchActorsCall (some wGandalf) none none (some 3)).actors.length
        ≤ min 3 50 ∧
     (handleSearchActorsCall (some wGandalf) none none (some 3)).total
        = (actorsMatching wGandalf none none).length) ∧
    (handleSearchActorsCall (some wGandalf) none none none).actors.length ≤ 10 :=
  ⟨by decide, searchPipeline_respects_capped_limit wGandalf none none 3 (by decide)⟩

/-- C3: an actor name search selects exactly the documents whose
lowered name contains the lowered query as an infix (so the empty query
selects every document), a nonempty type filter is an additional exact
case-insensitive equality conjoined with the name filter, the returned
slice is the limit-truncated prefix of that selection with the full
count in `total`, and zero matches yield the empty result rather than
an error. -/
theorem searchActors_substring_and_type_semantics :
    (∀ (w : WorldData) (q : String) (L : Option Nat),
      (searchActors (some w) ⟨some q, none, L⟩).total
          = (actorsMatching w (some q) none).length ∧
      (searchActors (some w) ⟨some q, none, L⟩).actors
          = ((actorsMatching w (some q) none).take (jsOrNat L 10)).map
              worldActorToFoundry) ∧
    (∀ (w : WorldData) (q : String) (a : WorldActor),
      a ∈ actorsMatching w (some q) none ↔
        a ∈ w.actors ∧ lowerStr q <:+: lowerStr a.name) ∧
    (∀ (w : WorldData) (q tv : String) (a : WorldActor), tv ≠ "" →
      (a ∈ actorsMatching w (some q) (some tv) ↔
        a ∈ w.actors ∧ lowerStr q <:+: lowerStr a.name ∧
          lowerStr a.type = lowerStr tv)) ∧
    (∀ w : WorldData, actorsMatching w (some "") none = w.actors) ∧
    (∀ (w : WorldData) (q t : Option String) (L : Option Nat),
      actorsMatching w q t = [] →
        (searchActors (some w) ⟨q, t, L⟩).actors = [] ∧
        (searchActors (some w) ⟨q, t, L⟩).total = 0) := by
  refine ⟨?_, ?_, ?_, ?_, ?_⟩
  · intro w q L
    rw [searchActors_eq]
    exact ⟨rfl, rfl⟩
  · intro w q a
    by_cases hq : q = ""
    · subst hq
      simp [actorsMatching, List.mem_filter, actorNameMatchesCI,
        actorTypeMatchesCI, jsStrFilter, lowerStr_empty]
    · simp [actorsMatching, List.mem_filter, actorNameMatchesCI,
        actorTypeMatchesCI, jsStrFilter, hq, strContainsCI_iff]
  · intro w q tv a htv
    by_cases hq : q = ""
    · subst hq
      simp [actorsMatching, List.mem_filter, actorNameMatchesCI,
        actorTypeMatchesCI, jsStrFilter, htv, lowerStr_empty, and_assoc]
    · simp [actorsMatching, List.mem_filter, actorNameMatchesCI,
        actorTypeMatchesCI, jsStrFilter, hq, htv, strContainsCI_iff, and_assoc]
  · intro w
    simp [actorsMatching, actorNameMatchesCI, actorTypeMatchesCI, jsStrFilter]
  · intro w q t L h
    rw [searchActors_eq]
    simp [h]

/-- C3 witness: the type-filtered membership characterization applied
to the concrete actor Gandalf. -/
theorem searchActors_substring_semantics_witness :
    ("npc" : String) ≠ "" ∧
    (actorGandalf ∈ actorsMatching wGandalf (some "gan") (some "npc") ↔
      actorGandalf ∈ wGandalf.actors ∧
        lowerStr "gan" <:+: lowerStr actorGandalf.name ∧
        lowerStr actorGandalf.type = lowerStr "npc") :=
  ⟨by decide,
    searchActors_substring_and_type_semantics.2.2.1 wGandalf "gan" "npc"
      actorGandalf (by decide)⟩

/-- C6: `refreshWorldData` fails with the `Not connected` error
whenever no realtime connection is open, any failing refresh leaves the
client state — in particular the cached snapshot — unchanged, and a
successful refresh replaces the snapshot wholesale in one assignment. -/
theorem refreshWorldData_failure_preserves_snapshot :
    ∀ (s : FoundryClientState) (o : RefreshOutcome),
      (socketIsConnected s.socket = false →
        refreshWorldData s o
          = (.error "Not connected — cannot refresh world data", s)) ∧
      (∀ msg, (refreshWorldData s o).1 = .error msg →
        (refreshWorldData s o).2 = s) ∧
      (∀ d, socketIsConnected s.socket = true →
        refreshWorldData s (.success d)
          = (.ok (), { s with worldData := some d })) := by
  intro s o
  refine ⟨fun h => ?_, fun msg h => ?_, fun d h => ?_⟩
  · simp [refreshWorldData, h]
  · by_cases hc : socketIsConnected s.socket
    · cases o with
      | success d => simp [refreshWorldData, hc] at h
      | timeout => simp [refreshWorldData, hc]
    · simp [refreshWorldData, hc]
  · simp [refreshWorldData, h]

/-- C6 witness: the three branches applied at concrete client states:
a disconnected client, a connected client timing out, and a connected
client receiving a fresh payload. -/
theorem refreshWorldData_witness :
    socketIsConnected sDisconnected.socket = false ∧
    refreshWorldData sDisconnected RefreshOutcome.timeout
      = (.error "Not connected — cannot refresh world data", sDisconnected) ∧
    (refreshWorldData sConnected RefreshOutcome.timeout).2 = sConnected ∧
    refreshWorldData sConnected (.success wEmpty)
      = (.ok (), { sConnected with worldData := some wEmpty }) :=
  ⟨rfl,
    (refreshWorldData_failure_preserves_snapshot sDisconnected .timeout).1 rfl,
    (refreshWorldData_failure_preserves_snapshot sConnected .timeout).2.1
      "Refresh timeout" rfl,
    (refreshWorldData_failure_preserves_snapshot sConnected
      (.success wEmpty)).2.2 wEmpty rfl⟩

/-- C7: without an explicit id, the current-scene lookup returns the
first scene flagged active and fails with `No active scene` when no
scene is flagged active; the active-combat lookup returns the first
combat flagged active and returns the explicit empty result `none`
(never an error) when no combat is flagged active. -/
theorem activeSelection_semantics :
    ∀ w : WorldData,
      ((∀ s ∈ w.scenes, s.active = false) →
        getCurrentScene (some w) none = .error "No active scene") ∧
      (∀ sc, w.scenes.find? (fun s => s.active) = some sc →
        getCurrentScene (some w) none = .ok (worldSceneToFoundry sc)) ∧
      ((∀ c ∈ w.combats, c.active = false) → getCombatState (some w) = none) ∧
      (∀ cb, w.combats.find? (fun c => c.active) = some cb →
        getCombatState (some w) = some cb) := by
  intro w
  refine ⟨fun h => ?_, fun sc h => ?_, fun h => ?_, fun cb h => ?_⟩
  · have hn : w.scenes.find? (fun s => s.active) = none := by
      rw [List.find?_eq_none]
      intro x hx
      simp [h x hx]
    simp [getCurrentScene, jsStrFilter, hn]
  · simp [getCurrentScene, jsStrFilter, h]
  · have hn : w.combats.find? (fun c => c.active) = none := by
      rw [List.find?_eq_none]
      intro x hx
      simp [h x hx]
    simp [getCombatState, hn]
  · simp [getCombatState, h]

/-- C7 witness: the four branches applied at the concrete empty
snapshot and at the snapshot with one active scene and one active
combat. -/
theorem activeSelection_semantics_witness :
    (∀ s ∈ wEmpty.scenes, s.active = false) ∧
    getCurrentScene (some wEmpty) none = .error "No active scene" ∧
    getCombatState (some wEmpty) = none ∧
    wActive.scenes.find? (fun s => s.active) = some sceneA ∧
    getCurrentScene (some wActive) none = .ok (worldSceneToFoundry sceneA) ∧
    getCombatState (some wActive) = some combatFixture :=
  ⟨by decide,
    (activeSelection_semantics wEmpty).1 (by decide),
    (activeSelection_semantics wEmpty).2.2.1 (by decide),
    rfl,
    (activeSelection_semantics wActive).2.1 sceneA rfl,
    (activeSelection_semantics wActive).2.2.2 combatFixture rfl⟩

/-- C9: the credential-submission step succeeds — returning the
`{session, userId}` pair — exactly when the join response body carries
a status field equal to `success` or a redirect to `/game`; in every
other case it fails with the authentication-rejected error. -/
theorem submitJoinCredentials_rejection_iff :
    ∀ (session userId : String) (data : Option JoinResponseData),
      (submitJoinCredentials session userId data = .ok (session, userId) ↔
        data.bind (fun d => d.status) = some "success" ∨
        data.bind (fun d => d.redirect) = some "/game") ∧
      ((data.bind (fun d => d.status) ≠ some "success" ∧
        data.bind (fun d => d.redirect) ≠ some "/game") →
        submitJoinCredentials session userId data
          = .error ("FoundryVTT authentication failed: "
              ++ joinFailureDetail data)) := by
  intro session userId data
  constructor
  · by_cases hcond : data.bind (fun d => d.status) ≠ some "success" ∧
        data.bind (fun d => d.redirect) ≠ some "/game"
    · simp [submitJoinCredentials, hcond]
    · simp [submitJoinCredentials, hcond]
      tauto
  · intro h
    simp [submitJoinCredentials, h]

/-- C9 witness: an explicit-success body is accepted and an absent
body is rejected with the default diagnostic. -/
theorem submitJoinCredentials_witness :
    submitJoinCredentials "sess" "u1"
        (some { status := some "success", redirect := none, message := none
                error := none })
      = .ok ("sess", "u1") ∧
    submitJoinCredentials "sess" "u1" none
      = .error ("FoundryVTT authentication failed: " ++ joinFailureDetail none) :=
  ⟨(submitJoinCredentials_rejection_iff "sess" "u1" _).1.mpr (Or.inl rfl),
    (submitJoinCredentials_rejection_iff "sess" "u1" none).2
      ⟨by simp, by simp⟩⟩

/-- C10: an explicit limit of 0 on `searchActors` or `searchItems` is
treated as unspecified — the reported limit field is 10, the slice
holds `min 10 total` items, and in particular at least one match yields
at least one returned item rather than zero. -/
theorem search_limit_zero_uses_default :
    ∀ (w : WorldData) (query type : Option String),
      ((searchActors (some w) ⟨query, type, some 0⟩).limit = 10 ∧
       (searchActors (some w) ⟨query, type, some 0⟩).actors.length
          = min 10 (actorsMatching w query type).length ∧
       (1 ≤ (searchActors (some w) ⟨query, type, some 0⟩).total →
         1 ≤ (searchActors (some w) ⟨query, type, some 0⟩).actors.length)) ∧
      ((searchItems (some w) ⟨query, type, none, some 0⟩).limit = 10 ∧
       (searchItems (some w) ⟨query, type, none, some 0⟩).items.length
          = min 10 (itemsMatching w query type).length ∧
       (1 ≤ (searchItems (some w) ⟨query, type, none, some 0⟩).total →
         1 ≤ (searchItems (some w) ⟨query, type, none, some 0⟩).items.length)) := by
  intro w query type
  have ha := searchActors_eq w ⟨query, type, some 0⟩
  have hi := searchItems_eq w ⟨query, type, none, some 0⟩
  rw [ha, hi]
  simp only [List.length_map, List.length_take, jsOrNat]
  refine ⟨⟨rfl, rfl, fun h => ?_⟩, ⟨rfl, rfl, fun h => ?_⟩⟩
  · exact le_min (by decide) h
  · exact le_min (by decide) h

/-- C10 witness: the limit-0 behaviour applied at the concrete 1-actor
snapshot: one item is returned, not zero. -/
theorem search_limit_zero_uses_default_witness :
    (searchActors (some wGandalf) ⟨none, none, some 0⟩).limit = 10 ∧
    1 ≤ (searchActors (some wGandalf) ⟨none, none, some 0⟩).total ∧
    1 ≤ (searchActors (some wGandalf) ⟨none, none, some 0⟩).actors.length :=
  ⟨(search_limit_zero_uses_default wGandalf none none).1.1,
    by decide,
    (search_limit_zero_uses_default wGandalf none none).1.2.2 (by decide)⟩

end FoundryMCP
